import Mathlib

/-!
Verification of the kube_event_watcher event pipeline (src/main.go).

The development shallowly embeds the program's data model and operations:

* `DomeosEvent`, `marshalDomeosEvent`, `reportEvent` embed the delivery
  sink (src/main.go lines 216-251).  Side effects (log lines, HTTP
  attempts) are reified in a `ReportEffects` record, and the fallible
  library calls (`json.Marshal`, `http.NewRequest`, `http.Do`,
  `ioutil.ReadAll`) are driven by a `NetEnv` oracle describing which of
  them fail, so that every control path of the Go function is a branch
  of the Lean function.
* `addEvent`, `updateEvent`, `deleteEvent` embed the event controller
  handlers (lines 171-214).  A handler returns the `reportEvent`
  invocation it performs, or `none` when it discards its input.
* `registeredHandlers` / `initializeMetricCollection` embed the informer
  registration (lines 255-269): AddFunc and DeleteFunc set, no
  UpdateFunc, resync period of five minutes.
* `mainStartup` embeds the startup checks of `main` (lines 63-95).
* The reflector/informer loop itself is client-go library code that is
  not part of this repository; it is modelled from the spec
  (`stepReflector`, `reflectorTrace`), see the doc comments there.
-/

/-- A JSON value, the target of Go `json.Marshal`. -/
inductive Json where
  | jnull : Json
  | jbool : Bool → Json
  | jnum : Int → Json
  | jstr : String → Json
  | jarr : List Json → Json
  | jobj : List (String × Json) → Json

/-- The watched resource (`*v1.Event`).  Its many fields are irrelevant to the
pipeline, which only ever forwards the whole object; we carry its JSON
serialization as an opaque body. -/
structure V1Event where
  body : Json

/-- Embeds the Go struct `DomeosEvent` (src/main.go lines 216-224) with its four
fields and their json tags `k8sEvent`, `clusterId`, `clusterApi`, `eventType`. -/
structure DomeosEvent where
  K8sEvent : V1Event
  ClusterId : Int
  ClusterApi : String
  eventType : String

/-- Go `json.Marshal` applied to a `DomeosEvent`: an object whose fields are
exactly the four tagged struct fields, in declaration order. -/
def marshalDomeosEvent (d : DomeosEvent) : Json :=
  Json.jobj [("k8sEvent", d.K8sEvent.body),
             ("clusterId", Json.jnum d.ClusterId),
             ("clusterApi", Json.jstr d.ClusterApi),
             ("eventType", Json.jstr d.eventType)]

/-- An HTTP request as constructed by `reportEvent`. -/
structure HttpRequest where
  method : String
  url : String
  contentType : String
  body : Json

/-- Outcome of `http.DefaultClient.Do`: a network error, or a response with a
status code and a flag telling whether `ioutil.ReadAll` on the body succeeds. -/
inductive NetResult where
  | netErr : NetResult
  | response : Nat → Bool → NetResult

/-- Oracle for the fallible library calls inside `reportEvent`: whether
`json.Marshal` fails, whether `http.NewRequest` fails, and what `Do` returns. -/
structure NetEnv where
  marshalFails : Bool
  newRequestFails : Bool
  netResult : NetResult

/-- The log lines `reportEvent` can emit (src/main.go lines 229, 235, 243, 247). -/
inductive LogMsg where
  | marshalErr : LogMsg
  | createRequestErr : LogMsg
  | getResponseErr : LogMsg
  | readBodyErr : LogMsg
deriving DecidableEq

/-- Reified observable effects of one `reportEvent` call: the log lines written
and the HTTP requests actually handed to `http.DefaultClient.Do`. -/
structure ReportEffects where
  logs : List LogMsg
  attempts : List HttpRequest

/-- Embeds `reportEvent` (src/main.go lines 226-251).  Marshal failure: log and
return.  Request-construction failure: log and return.  Otherwise build the
POST with the fixed content-type header and hand it to `Do`; a network error or
a body-read failure is only logged.  The function is total and returns the
effect record on every path: the Go function never panics and returns no error. -/
def reportEvent (url : String) (de : DomeosEvent) (env : NetEnv) : ReportEffects :=
  if env.marshalFails then
    { logs := [LogMsg.marshalErr], attempts := [] }
  else if env.newRequestFails then
    { logs := [LogMsg.createRequestErr], attempts := [] }
  else
    let req : HttpRequest :=
      { method := "POST", url := url,
        contentType := "application/json;charset=UTF-8",
        body := marshalDomeosEvent de }
    match env.netResult with
    | NetResult.netErr => { logs := [LogMsg.getResponseErr], attempts := [req] }
    | NetResult.response _ readOk =>
        { logs := if readOk then [] else [LogMsg.readBodyErr], attempts := [req] }

/-- The configuration flags read by the pipeline (src/main.go lines 43-61). -/
structure Config where
  inCluster : Bool
  apiserver : String
  token : String
  help : Bool
  clusterId : Int
  domeosServer : String

/-- A raw `interface\x7b\x7d` value handed to a handler: Go `nil`, a typed
`*v1.Event`, or any other value (the failing type assertion case). -/
inductive RawObj where
  | nil : RawObj
  | event : V1Event → RawObj
  | other : String → RawObj

/-- A `reportEvent` invocation: the destination url and the envelope. -/
abbrev SinkCall := String × DomeosEvent

/-- Embeds `eventController.addEvent` (src/main.go lines 171-184): discard `nil`
and values that are not a `*v1.Event`; otherwise call `reportEvent` with an
envelope of type "add".  The returned option is the invocation performed. -/
def addEvent (cfg : Config) : RawObj → Option SinkCall
  | RawObj.nil => none
  | RawObj.other _ => none
  | RawObj.event e =>
      some (cfg.domeosServer,
            { K8sEvent := e, ClusterId := cfg.clusterId,
              ClusterApi := cfg.apiserver, eventType := "add" })

/-- Embeds `eventController.updateEvent` (src/main.go lines 186-199): the same
shape checks on the current object, envelope type "update". -/
def updateEvent (cfg : Config) (_old cur : RawObj) : Option SinkCall :=
  match cur with
  | RawObj.nil => none
  | RawObj.other _ => none
  | RawObj.event e =>
      some (cfg.domeosServer,
            { K8sEvent := e, ClusterId := cfg.clusterId,
              ClusterApi := cfg.apiserver, eventType := "update" })

/-- Embeds `eventController.deleteEvent` (src/main.go lines 201-214): the same
shape checks, envelope type "delete". -/
def deleteEvent (cfg : Config) : RawObj → Option SinkCall
  | RawObj.nil => none
  | RawObj.other _ => none
  | RawObj.event e =>
      some (cfg.domeosServer,
            { K8sEvent := e, ClusterId := cfg.clusterId,
              ClusterApi := cfg.apiserver, eventType := "delete" })

/-- The client-go `cache.ResourceEventHandlerFuncs` record: three optional
callbacks, a `none` field meaning the corresponding notification kind is
dropped.  Only the registration (which fields are set) lives in src/main.go. -/
structure ResourceEventHandlerFuncs where
  AddFunc : Option (RawObj → Option SinkCall)
  UpdateFunc : Option (RawObj → RawObj → Option SinkCall)
  DeleteFunc : Option (RawObj → Option SinkCall)

/-- The handler registration performed by `initializeMetricCollection`
(src/main.go lines 263-266): `AddFunc` and `DeleteFunc` are set to the event
controller methods, no `UpdateFunc` is set. -/
def registeredHandlers (cfg : Config) : ResourceEventHandlerFuncs :=
  { AddFunc := some (addEvent cfg),
    UpdateFunc := none,
    DeleteFunc := some (deleteEvent cfg) }

/-- A change notification as handed to the handler funcs by the informer. -/
inductive ChangeNotification where
  | added : RawObj → ChangeNotification
  | updated : RawObj → RawObj → ChangeNotification
  | deleted : RawObj → ChangeNotification

/-- An invocation of one of the registered handler functions. -/
inductive HandlerInvocation where
  | addH : RawObj → HandlerInvocation
  | updateH : RawObj → RawObj → HandlerInvocation
  | deleteH : RawObj → HandlerInvocation

/-- Modelled from the spec: the dispatch step of client-go's
`ResourceEventHandlerFuncs` (library code, not under src/), which on each
notification calls the matching callback when it is set and does nothing when
it is nil (spec §4.2).  Returns the list of handler invocations performed. -/
def dispatchInvocations (h : ResourceEventHandlerFuncs) :
    ChangeNotification → List HandlerInvocation
  | ChangeNotification.added o =>
      match h.AddFunc with
      | some _ => [HandlerInvocation.addH o]
      | none => []
  | ChangeNotification.updated o c =>
      match h.UpdateFunc with
      | some _ => [HandlerInvocation.updateH o c]
      | none => []
  | ChangeNotification.deleted o =>
      match h.DeleteFunc with
      | some _ => [HandlerInvocation.deleteH o]
      | none => []

/-- Modelled from the spec: the same dispatch step observed at the delivery
sink, returning the `reportEvent` invocations the dispatched handler performs. -/
def dispatchSinkCalls (h : ResourceEventHandlerFuncs) :
    ChangeNotification → List SinkCall
  | ChangeNotification.added o =>
      match h.AddFunc with
      | some f => (f o).toList
      | none => []
  | ChangeNotification.updated o c =>
      match h.UpdateFunc with
      | some f => (f o c).toList
      | none => []
  | ChangeNotification.deleted o =>
      match h.DeleteFunc with
      | some f => (f o).toList
      | none => []

/-- Go `time.Minute` in nanoseconds (`time.Duration` counts nanoseconds). -/
def timeMinute : Nat := 60 * 1000000000

/-- The constant `resyncPeriod = 5 * time.Minute` (src/main.go lines 39-41). -/
def resyncPeriod : Nat := 5 * timeMinute

/-- The informer construction parameters passed to `cache.NewInformer`. -/
structure InformerConfig where
  resync : Nat
  handlers : ResourceEventHandlerFuncs
  watchedResource : String
  watchedNamespace : String

/-- Embeds `initializeMetricCollection` (src/main.go lines 255-269): a
list/watch on "events" across all namespaces (`v1.NamespaceAll` is the empty
string), the 5-minute resync period, and the Add/Delete handler registration. -/
def initializeMetricCollection (cfg : Config) : InformerConfig :=
  { resync := resyncPeriod,
    handlers := registeredHandlers cfg,
    watchedResource := "events",
    watchedNamespace := "" }

/-- An object identity in the watched collection: namespace plus name (spec §3,
WatchedResource). -/
structure ObjectId where
  nspace : String
  name : String
deriving DecidableEq

/-- A notification emitted by the reflector loop, at the identity level. -/
inductive ReflectorNotif where
  | added : ObjectId → ReflectorNotif
  | updated : ObjectId → ReflectorNotif
  | deleted : ObjectId → ReflectorNotif
deriving DecidableEq

/-- One input consumed by the reflector loop: a streamed watch change
(add/modify/delete of one identity) or a full listing of the remote collection
(the bootstrap listing, a marker-expiry re-list, or the periodic forced resync
all take this form, spec §4.1 steps 1, 3 and 4). -/
inductive SourceStep where
  | watchAdd : ObjectId → SourceStep
  | watchMod : ObjectId → SourceStep
  | watchDel : ObjectId → SourceStep
  | relist : List ObjectId → SourceStep

/-- Modelled from the spec: one transition of the reflector/informer loop
(client-go library code, not under src/), following spec §4.1 and the §3
invariant ("enforced by maintaining a local set of known identities reconciled
against each full listing").  The state is the local mirror, a duplicate-free
list of known identities.  A streamed add or modify of a known identity is
presented as Updated, of an unknown identity as Added; a streamed delete of an
unknown identity is dropped.  A full listing is reconciled by diff: identities
no longer present are emitted as Deleted, newly present ones as Added, and
identities present in both as Updated (consistency markers are abstracted away,
so every surviving identity is conservatively treated as possibly changed).
Returns the new mirror and the notifications emitted. -/
def stepReflector (mirror : List ObjectId) :
    SourceStep → List ObjectId × List ReflectorNotif
  | SourceStep.watchAdd i =>
      if i ∈ mirror then (mirror, [ReflectorNotif.updated i])
      else (i :: mirror, [ReflectorNotif.added i])
  | SourceStep.watchMod i =>
      if i ∈ mirror then (mirror, [ReflectorNotif.updated i])
      else (i :: mirror, [ReflectorNotif.added i])
  | SourceStep.watchDel i =>
      if i ∈ mirror then (mirror.erase i, [ReflectorNotif.deleted i])
      else (mirror, [])
  | SourceStep.relist s =>
      let s2 := s.dedup
      (s2,
       (mirror.filter (fun j => decide (j ∉ s2))).map ReflectorNotif.deleted
         ++ (s2.filter (fun j => decide (j ∉ mirror))).map ReflectorNotif.added
         ++ (s2.filter (fun j => decide (j ∈ mirror))).map ReflectorNotif.updated)

/-- Modelled from the spec: the reflector loop run over a whole input sequence,
threading the mirror and concatenating the emitted notifications. -/
def runReflector (mirror : List ObjectId) :
    List SourceStep → List ObjectId × List ReflectorNotif
  | [] => (mirror, [])
  | s :: rest =>
      let p := stepReflector mirror s
      let q := runReflector p.1 rest
      (q.1, p.2 ++ q.2)

/-- The notification sequence the reflector loop emits from its start (empty
mirror, spec §4.1 step 1: the bootstrap listing is the first relist input). -/
def reflectorTrace (steps : List SourceStep) : List ReflectorNotif :=
  (runReflector [] steps).2

/-- Projection of one notification onto one identity: `some true` for an Added
of that identity, `some false` for a Deleted of it, `none` otherwise. -/
def projNotif (i : ObjectId) : ReflectorNotif → Option Bool
  | ReflectorNotif.added j => if j = i then some true else none
  | ReflectorNotif.updated _ => none
  | ReflectorNotif.deleted j => if j = i then some false else none

/-- The add/delete subtrace of one identity, as booleans. -/
def projTrace (i : ObjectId) (t : List ReflectorNotif) : List Bool :=
  t.filterMap (projNotif i)

/-- Strict alternation of a boolean sequence starting from state `b`: each
element differs from the state before it.  On an identity's add/delete
subtrace, `altFrom false` says adds and deletes alternate starting with an
add — in particular no two adds without an intervening delete. -/
def altFrom : Bool → List Bool → Bool
  | _, [] => true
  | b, e :: rest => (e != b) && altFrom e rest

/-- The state after a boolean sequence: its last element, or `b` if empty. -/
def endState (b : Bool) (l : List Bool) : Bool :=
  l.foldl (fun _ e => e) b

/-- The reflector loop invariant tying the mirror to the emitted trace: the
mirror is duplicate-free, every identity's add/delete subtrace alternates
starting from "absent", and an identity is in the mirror exactly when its
subtrace ends in an add. -/
def MirrorInv (mirror : List ObjectId) (t : List ReflectorNotif) : Prop :=
  mirror.Nodup ∧
    ∀ i : ObjectId,
      altFrom false (projTrace i t) = true ∧
        (i ∈ mirror ↔ endState false (projTrace i t) = true)

/-- Outcome of the startup sequence of `main` (src/main.go lines 63-95). -/
inductive MainOutcome where
  | parseFatal : MainOutcome
  | exitHelp : MainOutcome
  | fatalNoApiserver : String → MainOutcome
  | clientFatal : MainOutcome
  | running : MainOutcome
deriving DecidableEq

/-- Oracle for the fallible startup steps: whether `flags.Parse` succeeds and
whether `createKubeClient` succeeds. -/
structure StartEnv where
  parseOk : Bool
  clientOk : Bool
deriving DecidableEq

/-- Embeds the startup checks of `main` (src/main.go lines 63-95) in program
order: parse failure is fatal; `--help` exits; an empty `--apiserver` with
`--in-cluster=false` is fatal before `createKubeClient` is called; then the
client is created and, on success, steady state begins.  The second component
records whether client creation was attempted. -/
def mainStartup (cfg : Config) (env : StartEnv) : MainOutcome × Bool :=
  if !env.parseOk then (MainOutcome.parseFatal, false)
  else if cfg.help then (MainOutcome.exitHelp, false)
  else if cfg.apiserver = "" && !cfg.inCluster then
    (MainOutcome.fatalNoApiserver
      "--apiserver not set and --in-cluster is false; apiserver must be set to a valid URL",
     false)
  else if !env.clientOk then (MainOutcome.clientFatal, true)
  else (MainOutcome.running, true)

/-- A concrete resource payload used to instantiate theorems with hypotheses. -/
def sampleEvent : V1Event := { body := Json.jstr "evt" }

/-- A concrete configuration used to instantiate theorems with hypotheses. -/
def sampleConfig : Config :=
  { inCluster := true, apiserver := "https://api", token := "", help := false,
    clusterId := 7, domeosServer := "http://domeos" }

/-- A concrete envelope used to instantiate theorems with hypotheses. -/
def sampleEnvelope : DomeosEvent :=
  { K8sEvent := sampleEvent, ClusterId := 7, ClusterApi := "https://api",
    eventType := "add" }

/-- A concrete network oracle on which every library call succeeds up to `Do`,
which reports a network error. -/
def sampleNetEnv : NetEnv :=
  { marshalFails := false, newRequestFails := false,
    netResult := NetResult.netErr }

/-- A concrete object identity used to instantiate theorems with hypotheses. -/
def sampleId : ObjectId := { nspace := "d", name := "x" }

/-- A concrete network oracle on which `json.Marshal` fails. -/
def sampleFailEnv : NetEnv :=
  { marshalFails := true, newRequestFails := false,
    netResult := NetResult.netErr }

/-- A concrete configuration with an empty apiserver and the in-cluster flag
off, used to instantiate the startup theorem. -/
def sampleBadConfig : Config :=
  { inCluster := false, apiserver := "", token := "", help := false,
    clusterId := 0, domeosServer := "" }

/-- The concrete sink call produced by dispatching an Added notification for
`sampleEvent` under `sampleConfig`. -/
def sampleSinkCall : SinkCall :=
  (sampleConfig.domeosServer,
   { K8sEvent := sampleEvent, ClusterId := sampleConfig.clusterId,
     ClusterApi := sampleConfig.apiserver, eventType := "add" })

theorem projTrace_append (i : ObjectId) (t1 t2 : List ReflectorNotif) :
    projTrace i (t1 ++ t2) = projTrace i t1 ++ projTrace i t2 := by
  simp [projTrace]

theorem endState_append (b : Bool) (l1 l2 : List Bool) :
    endState b (l1 ++ l2) = endState (endState b l1) l2 := by
  simp [endState, List.foldl_append]

theorem altFrom_append (b : Bool) (l1 l2 : List Bool) :
    altFrom b (l1 ++ l2) = (altFrom b l1 && altFrom (endState b l1) l2) := by
  induction l1 generalizing b with
  | nil => simp [altFrom, endState]
  | cons e l1 ih => simp [altFrom, endState, ih e, Bool.and_assoc]

theorem filterMap_ite_single (i : ObjectId) (c : Bool) (l : List ObjectId)
    (hl : l.Nodup) :
    l.filterMap (fun j => if j = i then some c else none)
      = if i ∈ l then [c] else [] := by
  induction l with
  | nil => simp
  | cons a l ih =>
      rcases List.nodup_cons.mp hl with ⟨ha, hl2⟩
      by_cases hai : a = i
      · subst hai
        simp [List.filterMap_cons, ih hl2, ha]
      · simp [List.filterMap_cons, hai, ih hl2, Ne.symm hai]

theorem projTrace_map (i : ObjectId) (c : Bool) (f : ObjectId → ReflectorNotif)
    (hf : ∀ j, projNotif i (f j) = if j = i then some c else none)
    (l : List ObjectId) (hl : l.Nodup) :
    projTrace i (l.map f) = if i ∈ l then [c] else [] := by
  rw [projTrace, List.filterMap_map]
  have hcomp : (projNotif i ∘ f) = fun j => if j = i then some c else none := by
    funext j
    exact hf j
  rw [hcomp, filterMap_ite_single i c l hl]

theorem projTrace_map_updated (i : ObjectId) (l : List ObjectId) :
    projTrace i (l.map ReflectorNotif.updated) = [] := by
  rw [projTrace, List.filterMap_map]
  simp [projNotif, Function.comp]

theorem projTrace_one_added (i j : ObjectId) :
    projTrace i [ReflectorNotif.added j] = if j = i then [true] else [] := by
  by_cases h : j = i <;> simp [projTrace, projNotif, h]

theorem projTrace_one_updated (i j : ObjectId) :
    projTrace i [ReflectorNotif.updated j] = [] := by
  simp [projTrace, projNotif]

theorem projTrace_one_deleted (i j : ObjectId) :
    projTrace i [ReflectorNotif.deleted j] = if j = i then [false] else [] := by
  by_cases h : j = i <;> simp [projTrace, projNotif, h]

theorem mirrorInv_emit_updated (mirror : List ObjectId) (t : List ReflectorNotif)
    (j : ObjectId) (h : MirrorInv mirror t) :
    MirrorInv mirror (t ++ [ReflectorNotif.updated j]) := by
  obtain ⟨hnd, hinv⟩ := h
  refine ⟨hnd, fun i => ?_⟩
  obtain ⟨halt, hmem⟩ := hinv i
  rw [projTrace_append, projTrace_one_updated, List.append_nil]
  exact ⟨halt, hmem⟩

theorem mirrorInv_emit_added (mirror : List ObjectId) (t : List ReflectorNotif)
    (j : ObjectId) (hj : j ∉ mirror) (h : MirrorInv mirror t) :
    MirrorInv (j :: mirror) (t ++ [ReflectorNotif.added j]) := by
  obtain ⟨hnd, hinv⟩ := h
  refine ⟨List.nodup_cons.mpr ⟨hj, hnd⟩, fun i => ?_⟩
  obtain ⟨halt, hmem⟩ := hinv i
  rw [projTrace_append, projTrace_one_added]
  by_cases hji : j = i
  · subst hji
    have hend : endState false (projTrace j t) = false := by
      cases hE : endState false (projTrace j t) with
      | false => rfl
      | true => exact absurd (hmem.mpr hE) hj
    rw [if_pos rfl]
    constructor
    · rw [altFrom_append, halt, hend]
      decide
    · rw [endState_append, hend]
      simp [endState]
  · rw [if_neg hji, List.append_nil]
    refine ⟨halt, ?_⟩
    rw [List.mem_cons]
    constructor
    · rintro (rfl | hm)
      · exact absurd rfl hji
      · exact hmem.mp hm
    · intro hE
      exact Or.inr (hmem.mpr hE)

theorem mirrorInv_emit_deleted (mirror : List ObjectId) (t : List ReflectorNotif)
    (j : ObjectId) (hj : j ∈ mirror) (h : MirrorInv mirror t) :
    MirrorInv (mirror.erase j) (t ++ [ReflectorNotif.deleted j]) := by
  obtain ⟨hnd, hinv⟩ := h
  refine ⟨hnd.erase j, fun i => ?_⟩
  obtain ⟨halt, hmem⟩ := hinv i
  rw [projTrace_append, projTrace_one_deleted]
  by_cases hji : j = i
  · subst hji
    have hend : endState false (projTrace j t) = true := hmem.mp hj
    rw [if_pos rfl]
    constructor
    · rw [altFrom_append, halt, hend]
      decide
    · rw [endState_append, hend]
      have hne : j ∉ mirror.erase j := hnd.not_mem_erase
      simp [endState, hne]
  · rw [if_neg hji, List.append_nil]
    refine ⟨halt, ?_⟩
    rw [List.mem_erase_of_ne (fun hij => hji hij.symm)]
    exact hmem

theorem mirrorInv_relist (mirror : List ObjectId) (t : List ReflectorNotif)
    (s : List ObjectId) (h : MirrorInv mirror t) :
    MirrorInv s.dedup
      (t ++ ((mirror.filter (fun j => decide (j ∉ s.dedup))).map ReflectorNotif.deleted
         ++ (s.dedup.filter (fun j => decide (j ∉ mirror))).map ReflectorNotif.added
         ++ (s.dedup.filter (fun j => decide (j ∈ mirror))).map ReflectorNotif.updated)) := by
  obtain ⟨hnd, hinv⟩ := h
  refine ⟨s.nodup_dedup, fun i => ?_⟩
  obtain ⟨halt, hmem⟩ := hinv i
  have hpd := projTrace_map i false ReflectorNotif.deleted (fun j => rfl)
    (mirror.filter (fun j => decide (j ∉ s.dedup))) (hnd.filter _)
  have hpa := projTrace_map i true ReflectorNotif.added (fun j => rfl)
    (s.dedup.filter (fun j => decide (j ∉ mirror))) ((s.nodup_dedup).filter _)
  have hpu := projTrace_map_updated i (s.dedup.filter (fun j => decide (j ∈ mirror)))
  rw [projTrace_append, projTrace_append, projTrace_append, hpd, hpa, hpu,
    List.append_nil]
  by_cases hm : i ∈ mirror
  · by_cases hs : i ∈ s.dedup
    · have hs2 : i ∈ s := List.mem_dedup.mp hs
      have h1 : i ∉ mirror.filter (fun j => decide (j ∉ s.dedup)) := by
        simp [List.mem_filter, hs2]
      have h2 : i ∉ s.dedup.filter (fun j => decide (j ∉ mirror)) := by
        simp [List.mem_filter, hm]
      rw [if_neg h1, if_neg h2, List.append_nil, List.append_nil]
      exact ⟨halt, iff_of_true hs (hmem.mp hm)⟩
    · have hs2 : i ∉ s := fun hc => hs (List.mem_dedup.mpr hc)
      have h1 : i ∈ mirror.filter (fun j => decide (j ∉ s.dedup)) := by
        simp [List.mem_filter, hm, hs2]
      have h2 : i ∉ s.dedup.filter (fun j => decide (j ∉ mirror)) := by
        simp [List.mem_filter, hs]
      have hend : endState false (projTrace i t) = true := hmem.mp hm
      rw [if_pos h1, if_neg h2, List.append_nil]
      constructor
      · rw [altFrom_append, halt, hend]
        decide
      · rw [endState_append, hend]
        simp [endState, hs]
  · by_cases hs : i ∈ s.dedup
    · have h1 : i ∉ mirror.filter (fun j => decide (j ∉ s.dedup)) := by
        simp [List.mem_filter, hm]
      have h2 : i ∈ s.dedup.filter (fun j => decide (j ∉ mirror)) := by
        simp [List.mem_filter, hs, hm]
      have hend : endState false (projTrace i t) = false := by
        cases hE : endState false (projTrace i t) with
        | false => rfl
        | true => exact absurd (hmem.mpr hE) hm
      rw [if_neg h1, if_pos h2, List.nil_append]
      constructor
      · rw [altFrom_append, halt, hend]
        decide
      · rw [endState_append, hend]
        simp [endState, hs]
    · have h1 : i ∉ mirror.filter (fun j => decide (j ∉ s.dedup)) := by
        simp [List.mem_filter, hm]
      have h2 : i ∉ s.dedup.filter (fun j => decide (j ∉ mirror)) := by
        simp [List.mem_filter, hs]
      have hend : endState false (projTrace i t) = false := by
        cases hE : endState false (projTrace i t) with
        | false => rfl
        | true => exact absurd (hmem.mpr hE) hm
      rw [if_neg h1, if_neg h2, List.append_nil, List.append_nil]
      exact ⟨halt, iff_of_false hs (by simp [hend])⟩

theorem stepReflector_inv (mirror : List ObjectId) (t : List ReflectorNotif)
    (s : SourceStep) (h : MirrorInv mirror t) :
    MirrorInv (stepReflector mirror s).1 (t ++ (stepReflector mirror s).2) := by
  cases s with
  | watchAdd j =>
      by_cases hj : j ∈ mirror
      · simpa [stepReflector, hj] using mirrorInv_emit_updated mirror t j h
      · simpa [stepReflector, hj] using mirrorInv_emit_added mirror t j hj h
  | watchMod j =>
      by_cases hj : j ∈ mirror
      · simpa [stepReflector, hj] using mirrorInv_emit_updated mirror t j h
      · simpa [stepReflector, hj] using mirrorInv_emit_added mirror t j hj h
  | watchDel j =>
      by_cases hj : j ∈ mirror
      · simpa [stepReflector, hj] using mirrorInv_emit_deleted mirror t j hj h
      · simpa [stepReflector, hj] using h
  | relist s =>
      simpa [stepReflector] using mirrorInv_relist mirror t s h

theorem runReflector_inv (steps : List SourceStep) :
    ∀ mirror t, MirrorInv mirror t →
      MirrorInv (runReflector mirror steps).1
        (t ++ (runReflector mirror steps).2) := by
  induction steps with
  | nil =>
      intro mirror t h
      simpa [runReflector] using h
  | cons s rest ih =>
      intro mirror t h
      have h2 := ih _ _ (stepReflector_inv mirror t s h)
      simpa [runReflector, List.append_assoc] using h2

theorem mirrorInv_nil : MirrorInv [] [] := by
  refine ⟨List.nodup_nil, fun i => ?_⟩
  constructor
  · rfl
  · simp [projTrace, endState]

theorem reflectorTrace_alternates (steps : List SourceStep) (i : ObjectId) :
    altFrom false (projTrace i (reflectorTrace steps)) = true := by
  have h := runReflector_inv steps [] [] mirrorInv_nil
  obtain ⟨-, hinv⟩ := h
  have h2 := (hinv i).1
  simpa [reflectorTrace] using h2

theorem altFrom_true_head (p2 p3 : List Bool)
    (h : altFrom true (p2 ++ true :: p3) = true) : false ∈ p2 := by
  cases p2 with
  | nil => simp [altFrom] at h
  | cons e p2 =>
      cases e with
      | false => exact List.mem_cons_self false p2
      | true => simp [altFrom] at h

/-- C2: with the handlers registered by `initializeMetricCollection`, an
Updated (in-place modification) notification invokes neither the object-added
handler nor the object-deleted handler, so no delivery is attempted for it,
while Added and Deleted notifications each invoke exactly one of the two
registered handlers. -/
theorem C2_updated_invokes_no_handler (cfg : Config) (o c a d : RawObj) :
    dispatchInvocations (registeredHandlers cfg) (ChangeNotification.updated o c) = []
      ∧ dispatchInvocations (registeredHandlers cfg) (ChangeNotification.added a)
          = [HandlerInvocation.addH a]
      ∧ dispatchInvocations (registeredHandlers cfg) (ChangeNotification.deleted d)
          = [HandlerInvocation.deleteH d] :=
  ⟨rfl, rfl, rfl⟩

/-- C3: when neither serialization nor request construction fails,
`reportEvent` issues exactly one HTTP POST, to the given url, whose
Content-Type header is exactly "application/json;charset=UTF-8" and whose body
is the JSON object with exactly the fields k8sEvent, clusterId, clusterApi and
eventType taken from the envelope. -/
theorem C3_post_shape (url : String) (de : DomeosEvent) (env : NetEnv)
    (hm : env.marshalFails = false) (hr : env.newRequestFails = false) :
    (reportEvent url de env).attempts
      = [{ method := "POST", url := url,
           contentType := "application/json;charset=UTF-8",
           body := Json.jobj [("k8sEvent", de.K8sEvent.body),
             ("clusterId", Json.jnum de.ClusterId),
             ("clusterApi", Json.jstr de.ClusterApi),
             ("eventType", Json.jstr de.eventType)] }] := by
  cases hn : env.netResult with
  | netErr => simp [reportEvent, hm, hr, hn, marshalDomeosEvent]
  | response st rok => simp [reportEvent, hm, hr, hn, marshalDomeosEvent]

/-- Witness for C3: on a concrete envelope and an oracle where construction
succeeds, the single attempted request is the expected POST. -/
theorem C3_post_shape_witness :
    (reportEvent "http://domeos" sampleEnvelope sampleNetEnv).attempts
      = [{ method := "POST", url := "http://domeos",
           contentType := "application/json;charset=UTF-8",
           body := Json.jobj [("k8sEvent", sampleEnvelope.K8sEvent.body),
             ("clusterId", Json.jnum sampleEnvelope.ClusterId),
             ("clusterApi", Json.jstr sampleEnvelope.ClusterApi),
             ("eventType", Json.jstr sampleEnvelope.eventType)] }] :=
  C3_post_shape "http://domeos" sampleEnvelope sampleNetEnv rfl rfl

/-- C4: a `reportEvent` call makes at most one HTTP POST attempt on every
path; the embedding is a total function returning its effect record on all
paths, so failures are not retried, not propagated and do not crash. -/
theorem C4_at_most_one_attempt (url : String) (de : DomeosEvent) (env : NetEnv) :
    (reportEvent url de env).attempts.length ≤ 1 := by
  by_cases h1 : env.marshalFails <;> by_cases h2 : env.newRequestFails <;>
    cases hn : env.netResult <;> simp [reportEvent, h1, h2, hn]

/-- C5: if JSON serialization of the envelope fails, `reportEvent` logs the
marshal error and returns without attempting any HTTP request. -/
theorem C5_marshal_failure_no_request (url : String) (de : DomeosEvent)
    (env : NetEnv) (h : env.marshalFails = true) :
    (reportEvent url de env).attempts = [] ∧
      (reportEvent url de env).logs = [LogMsg.marshalErr] := by
  simp [reportEvent, h]

/-- Witness for C5 on a concrete envelope and a failing-marshal oracle. -/
theorem C5_marshal_failure_no_request_witness :
    (reportEvent "http://domeos" sampleEnvelope sampleFailEnv).attempts = [] ∧
      (reportEvent "http://domeos" sampleEnvelope sampleFailEnv).logs
        = [LogMsg.marshalErr] :=
  C5_marshal_failure_no_request "http://domeos" sampleEnvelope sampleFailEnv rfl

/-- C6: the addEvent and deleteEvent handlers discard a nil input and an input
that is not a `*v1.Event` without calling `reportEvent`; both are total, so no
error reaches the caller. -/
theorem C6_malformed_discarded (cfg : Config) (v : String) :
    addEvent cfg RawObj.nil = none ∧ addEvent cfg (RawObj.other v) = none ∧
      deleteEvent cfg RawObj.nil = none ∧
      deleteEvent cfg (RawObj.other v) = none :=
  ⟨rfl, rfl, rfl, rfl⟩

/-- C7: two `reportEvent` runs that differ only in the HTTP response status
code produce identical observable effects, log output included: the status
code is never branched on. -/
theorem C7_status_code_irrelevant (url : String) (de : DomeosEvent)
    (mf rf : Bool) (s1 s2 : Nat) (rok : Bool) :
    reportEvent url de
        { marshalFails := mf, newRequestFails := rf,
          netResult := NetResult.response s1 rok }
      = reportEvent url de
          { marshalFails := mf, newRequestFails := rf,
            netResult := NetResult.response s2 rok } := by
  cases mf <;> cases rf <;> rfl

/-- C8: if the apiserver flag is empty and the in-cluster flag is false (with
flag parsing succeeded and help not requested), startup terminates with the
diagnostic message before any attempt to create the source client. -/
theorem C8_fatal_when_no_apiserver (cfg : Config) (env : StartEnv)
    (ha : cfg.apiserver = "") (hc : cfg.inCluster = false)
    (hp : env.parseOk = true) (hh : cfg.help = false) :
    mainStartup cfg env
      = (MainOutcome.fatalNoApiserver
          "--apiserver not set and --in-cluster is false; apiserver must be set to a valid URL",
         false) := by
  simp [mainStartup, ha, hc, hp, hh]

/-- Witness for C8 on a concrete configuration with an empty apiserver and the
in-cluster flag off. -/
theorem C8_fatal_when_no_apiserver_witness :
    mainStartup sampleBadConfig { parseOk := true, clientOk := true }
      = (MainOutcome.fatalNoApiserver
          "--apiserver not set and --in-cluster is false; apiserver must be set to a valid URL",
         false) :=
  C8_fatal_when_no_apiserver sampleBadConfig
    { parseOk := true, clientOk := true } rfl rfl rfl rfl

/-- C9: the informer is constructed with a forced full-resync interval of
exactly `resyncPeriod`, which is five minutes (300000000000 nanoseconds of Go
`time.Duration`), independent of any other input. -/
theorem C9_resync_five_minutes (cfg : Config) :
    (initializeMetricCollection cfg).resync = resyncPeriod ∧
      resyncPeriod = 5 * timeMinute ∧ resyncPeriod = 300000000000 :=
  ⟨rfl, rfl, rfl⟩

/-- C10: no UpdateFunc is registered, so every sink call produced by
dispatching any notification through the registered handlers carries an
envelope whose eventType is "add" or "delete"; "update" is never delivered. -/
theorem C10_no_update_envelopes (cfg : Config) (n : ChangeNotification)
    (call : SinkCall)
    (h : call ∈ dispatchSinkCalls (registeredHandlers cfg) n) :
    (registeredHandlers cfg).UpdateFunc = none ∧
      (call.2.eventType = "add" ∨ call.2.eventType = "delete") := by
  refine ⟨rfl, ?_⟩
  cases n with
  | added o =>
      cases o with
      | nil => simp [dispatchSinkCalls, registeredHandlers, addEvent] at h
      | other v => simp [dispatchSinkCalls, registeredHandlers, addEvent] at h
      | event e =>
          simp [dispatchSinkCalls, registeredHandlers, addEvent] at h
          subst h
          exact Or.inl rfl
  | updated o c =>
      simp [dispatchSinkCalls, registeredHandlers] at h
  | deleted o =>
      cases o with
      | nil => simp [dispatchSinkCalls, registeredHandlers, deleteEvent] at h
      | other v => simp [dispatchSinkCalls, registeredHandlers, deleteEvent] at h
      | event e =>
          simp [dispatchSinkCalls, registeredHandlers, deleteEvent] at h
          subst h
          exact Or.inr rfl

/-- Witness for C10: the sink call produced by a concrete Added notification
has eventType "add". -/
theorem C10_no_update_envelopes_witness :
    (registeredHandlers sampleConfig).UpdateFunc = none ∧
      (sampleSinkCall.2.eventType = "add" ∨
        sampleSinkCall.2.eventType = "delete") :=
  C10_no_update_envelopes sampleConfig
    (ChangeNotification.added (RawObj.event sampleEvent)) sampleSinkCall
    (List.mem_cons_self sampleSinkCall [])

/-- C1: in every notification sequence the reflector/informer loop emits, no
object identity receives two Added notifications without an intervening
Deleted notification for that same identity: whenever the trace decomposes
around two Added notifications for identity `i`, a Deleted for `i` occurs
between them. -/
theorem C1_no_duplicate_added (steps : List SourceStep) (i : ObjectId)
    (t1 t2 t3 : List ReflectorNotif)
    (h : reflectorTrace steps
      = t1 ++ ReflectorNotif.added i :: (t2 ++ ReflectorNotif.added i :: t3)) :
    ReflectorNotif.deleted i ∈ t2 := by
  have halt := reflectorTrace_alternates steps i
  rw [h] at halt
  have hproj : projTrace i
      (t1 ++ ReflectorNotif.added i :: (t2 ++ ReflectorNotif.added i :: t3))
      = projTrace i t1 ++ true :: (projTrace i t2 ++ true :: projTrace i t3) := by
    simp [projTrace, projNotif, List.filterMap_append, List.filterMap_cons]
  rw [hproj, altFrom_append] at halt
  simp only [Bool.and_eq_true] at halt
  obtain ⟨-, halt2⟩ := halt
  simp only [altFrom, Bool.and_eq_true] at halt2
  obtain ⟨-, halt3⟩ := halt2
  have hf : false ∈ projTrace i t2 := altFrom_true_head _ _ halt3
  rw [projTrace] at hf
  obtain ⟨n, hn, hfn⟩ := List.mem_filterMap.mp hf
  cases n with
  | added j =>
      by_cases hji : j = i <;> simp [projNotif, hji] at hfn
  | updated j => simp [projNotif] at hfn
  | deleted j =>
      by_cases hji : j = i
      · subst hji
        exact hn
      · simp [projNotif, hji] at hfn

/-- Witness for C1: the input sequence add, delete, add for one identity emits
the trace Added, Deleted, Added, and the theorem locates the Deleted between
the two Added notifications. -/
theorem C1_no_duplicate_added_witness :
    ReflectorNotif.deleted sampleId ∈ [ReflectorNotif.deleted sampleId] :=
  C1_no_duplicate_added
    [SourceStep.watchAdd sampleId, SourceStep.watchDel sampleId,
     SourceStep.watchAdd sampleId]
    sampleId [] [ReflectorNotif.deleted sampleId] [] (by decide)
